import Mathlib

/-!
web-service-gin: the three album handlers of `main.go`.

A shallow embedding of `getAlbums`, `postAlbums` and `getAlbumByID`.

The handlers are straight-line Go code that talks to two collaborators: the
`database/sql` handle `db` and the `gin.Context` `c`.  Both are embedded as explicit
state:

* `World σ` carries the response under construction (`c`), the state of the database
  behind the handle (`db`, of an arbitrary type `σ`), the statements sent over the
  handle so far (`issued`) and what was printed on standard output (`stdout`);
* a `Driver σ` says how the database answers each statement; the handlers are
  stated for every driver.

Values of Go type `float32` are only moved around by the handlers, never computed
with, so a `float32` is carried as its IEEE-754 bit pattern.  The one property of
the number that matters to a response is whether it is finite: `encoding/json`
refuses NaN and the infinities, and gin then sends no body.
-/

namespace WebServiceGin

/-! ## Go values -/

/-- A Go `error` value.  `sql.ErrNoRows` is a sentinel compared by identity
(`err == sql.ErrNoRows`); any other error is known by its text only. -/
inductive GoError where
  | ErrNoRows
  | other (text : String)
  deriving DecidableEq, Repr

/-- Go `float32`, as its bit pattern.  The zero value is `0`. -/
abbrev float32 := Nat

/-- A `float32` is finite unless its eight exponent bits (bits 23 to 30) are all
ones, the encodings of NaN and of the two infinities. -/
def float32.finite (bits : float32) : Bool := (bits / 2 ^ 23) % 256 != 255

/-- The `album` struct of main.go, lines 17-22. -/
structure album where
  ID : Int
  Title : String
  Artist : String
  Price : float32
  deriving DecidableEq, Repr

/-- The zero value that `var alb album` declares. -/
def album.zero : album := ⟨0, "", "", 0⟩

/-- A Go slice: `nil`, or a non-nil slice holding its elements in order. -/
inductive Slice (α : Type) where
  | nil
  | mk (elems : List α)
  deriving DecidableEq, Repr

/-- Go `append(s, x)`: appending to a nil slice allocates a one-element slice. -/
def Slice.append {α : Type} : Slice α → α → Slice α
  | .nil, x => .mk [x]
  | .mk l, x => .mk (l ++ [x])

/-- The elements of a slice; a nil slice has none. -/
def Slice.toList {α : Type} : Slice α → List α
  | .nil => []
  | .mk l => l

/-! ## JSON documents and `encoding/json` -/

/-- A JSON document. -/
inductive JSON where
  | null
  | int (n : Int)
  | float32 (bits : float32)
  | str (s : String)
  | arr (items : List JSON)
  | obj (members : List (String × JSON))

/-- The values the handlers hand to `c.IndentedJSON` as `obj any`. -/
inductive Any where
  | nil
  | H (message : String)
  | album (a : album)
  | albums (s : Slice album)

/-- An `album` marshals to an object with the keys of its `json:"..."` tags, in
field order. -/
def album.toJSON (a : album) : JSON :=
  .obj [("id", .int a.ID), ("title", .str a.Title), ("artist", .str a.Artist),
    ("price", .float32 a.Price)]

/-- The document `json.MarshalIndent` renders: a nil interface and a nil slice both
encode as `null`, a non-nil slice as an array, `gin.H` with the one key "message"
as a one-member object.  A floating-point value that is NaN or infinite has no
JSON form: marshalling fails with an `UnsupportedValueError`. -/
def marshal : Any → Except GoError JSON
  | .nil => .ok .null
  | .H message => .ok (.obj [("message", .str message)])
  | .album a =>
    if a.Price.finite then .ok a.toJSON else .error (.other "json: unsupported value")
  | .albums .nil => .ok .null
  | .albums (.mk l) =>
    if l.all (fun a => a.Price.finite) then .ok (.arr (l.map album.toJSON))
    else .error (.other "json: unsupported value")

/-! ## gin: the response writer and the context -/

/-- gin's `responseWriter`: the status that will go (or went) on the wire, whether
the header has been written, and the documents written to the body. -/
structure ResponseWriter where
  status : Nat
  written : Bool
  body : List JSON

/-- `responseWriter.reset`: status 200, nothing written. -/
def ResponseWriter.reset : ResponseWriter := ⟨200, false, []⟩

/-- `responseWriter.WriteHeader`: once the header is written the status is frozen. -/
def ResponseWriter.WriteHeader (w : ResponseWriter) (code : Nat) : ResponseWriter :=
  if code > 0 ∧ w.status ≠ code then
    if w.written then w else { w with status := code }
  else w

/-- `responseWriter.WriteHeaderNow`: commits the current status to the wire. -/
def ResponseWriter.WriteHeaderNow (w : ResponseWriter) : ResponseWriter :=
  if w.written then w else { w with written := true }

/-- `responseWriter.Write`: commits the header if needed, then appends to the body. -/
def ResponseWriter.Write (w : ResponseWriter) (data : JSON) : ResponseWriter :=
  let w := w.WriteHeaderNow
  { w with body := w.body ++ [data] }

/-- The parts of `gin.Context` the handlers touch. -/
structure Context where
  Writer : ResponseWriter
  Errors : List GoError
  aborted : Bool

/-- The context as the engine hands it to the handler of a new request. -/
def Context.reset : Context := ⟨ResponseWriter.reset, [], false⟩

/-- `c.Status(code)`. -/
def Context.Status (c : Context) (code : Nat) : Context :=
  { c with Writer := c.Writer.WriteHeader code }

/-- `c.AbortWithError(code, err)`: sets the status, writes the header at once,
aborts the chain and records the error. -/
def Context.AbortWithError (c : Context) (code : Nat) (err : GoError) : Context :=
  let c := c.Status code
  { c with Writer := c.Writer.WriteHeaderNow, aborted := true, Errors := c.Errors ++ [err] }

/-- gin's `bodyAllowedForStatus`. -/
def bodyAllowedForStatus (code : Nat) : Bool :=
  if 100 ≤ code ∧ code ≤ 199 then false
  else if code = 204 then false
  else if code = 304 then false
  else true

/-- `c.IndentedJSON(code, obj)`, that is `c.Render(code, render.IndentedJSON ...)`:
the status is set first; the document is written if it marshals; if marshalling
fails nothing is written, the error is recorded and the chain aborted, and the
response goes out with the status set and an empty body. -/
def Context.IndentedJSON (c : Context) (code : Nat) (obj : Any) : Context :=
  let c := c.Status code
  if bodyAllowedForStatus code then
    match marshal obj with
    | .ok doc => { c with Writer := c.Writer.Write doc }
    | .error err => { c with Errors := c.Errors ++ [err], aborted := true }
  else { c with Writer := c.Writer.WriteHeaderNow }

/-- `c.BindJSON(&album)`, given what decoding the request body into an `album`
yields: the context, the destination and the error returned.  `BindJSON` is the
must-bind variant: on failure it aborts the request with status 400 before
returning the error to the handler.  (What a failed decode leaves in the
destination is not read by the handler; it is left as it was.) -/
def Context.BindJSON (c : Context) (decoded : Except GoError album) (dest : album) :
    Context × album × Option GoError :=
  match decoded with
  | .ok a => (c, a, none)
  | .error err => (c.AbortWithError 400 err, dest, some err)

/-! ## database/sql -/

/-- A statement argument as the handler passes it. -/
inductive Value where
  | int (n : Int)
  | str (s : String)
  | float32 (bits : float32)
  deriving DecidableEq, Repr

/-- A statement sent over the handle: its SQL text and its arguments. -/
structure Stmt where
  query : String
  args : List Value
  deriving DecidableEq, Repr

/-- One result row as `Scan(&alb.ID, &alb.Title, &alb.Artist, &alb.Price)` sees it:
for each destination, the converted column value or the text of the conversion
failure.  A row with another number of columns fails before any destination is
assigned, which is a failure at the first destination. -/
structure RowData where
  ID : Except String Int
  Title : Except String String
  Artist : Except String String
  Price : Except String float32

/-- A row all of whose columns convert. -/
def RowData.of (a : album) : RowData := ⟨.ok a.ID, .ok a.Title, .ok a.Artist, .ok a.Price⟩

/-- The cursor `*sql.Rows`: the rows `Next` will yield, in result order, and the
error `Err` reports once `Next` has returned false. -/
structure Rows where
  pending : List RowData
  err : Option GoError

/-- `rows.Scan(&alb.ID, &alb.Title, &alb.Artist, &alb.Price)`: destinations are
assigned left to right; the first conversion that fails stops the scan, and the
error returned wraps the failure (so it is never the `ErrNoRows` sentinel itself). -/
def Rows.Scan (r : RowData) (alb : album) : album × Option GoError :=
  match r.ID with
  | .error e => (alb, some (.other e))
  | .ok id =>
    let alb := { alb with ID := id }
    match r.Title with
    | .error e => (alb, some (.other e))
    | .ok title =>
      let alb := { alb with Title := title }
      match r.Artist with
      | .error e => (alb, some (.other e))
      | .ok artist =>
        let alb := { alb with Artist := artist }
        match r.Price with
        | .error e => (alb, some (.other e))
        | .ok price => ({ alb with Price := price }, none)

/-- The `*sql.Row` that `db.QueryRow` returns: the deferred query error, the cursor,
and the error closing the cursor reports after a successful scan. -/
structure Row where
  err : Option GoError
  rows : Rows
  closeErr : Option GoError

/-- `row.Scan(...)`: the deferred error if any; `ErrNoRows` when the cursor yields
no row and reports no error; otherwise the scan of the first row, then the close. -/
def Row.Scan (r : Row) (alb : album) : album × Option GoError :=
  match r.err with
  | some e => (alb, some e)
  | none =>
    match r.rows.pending with
    | [] =>
      match r.rows.err with
      | some e => (alb, some e)
      | none => (alb, some .ErrNoRows)
    | x :: _ =>
      match Rows.Scan x alb with
      | (alb, some e) => (alb, some e)
      | (alb, none) => (alb, r.closeErr)

/-- The `sql.Result` of an `Exec`. -/
structure Result where
  LastInsertId : Int
  RowsAffected : Int
  deriving DecidableEq, Repr

/-- How the database behind the handle answers, as a function of its state. -/
structure Driver (σ : Type) where
  Query : String → List Value → σ → Except GoError Rows × σ
  QueryRow : String → List Value → σ → Row × σ
  Exec : String → List Value → σ → Except GoError Result × σ

/-! ## The process: handle, standard output, request context -/

/-- One `fmt.Printf(format, err)` call. -/
structure Print where
  format : String
  arg : GoError
  deriving DecidableEq, Repr

/-- Everything a handler reads and writes. -/
structure World (σ : Type) where
  c : Context
  db : σ
  issued : List Stmt
  stdout : List Print

/-- The world at the entry of a handler: the engine resets the context for each
request; the database and the output stream are as the process left them. -/
def World.request {σ : Type} (w : World σ) : World σ := { w with c := Context.reset }

/-- The status and body the client receives (the engine commits the header after the
handler returns if no write has done so). -/
def World.response {σ : Type} (w : World σ) : Nat × List JSON :=
  (w.c.Writer.status, w.c.Writer.body)

/-- `fmt.Printf(format, err)`. -/
def fmt.Printf {σ : Type} (format : String) (err : GoError) (w : World σ) : World σ :=
  { w with stdout := w.stdout ++ [⟨format, err⟩] }

/-- `c.IndentedJSON(code, obj)` in the world. -/
def IndentedJSON {σ : Type} (code : Nat) (obj : Any) (w : World σ) : World σ :=
  { w with c := w.c.IndentedJSON code obj }

/-- `db.Query(query, args...)`. -/
def db.Query {σ : Type} (d : Driver σ) (query : String) (args : List Value) (w : World σ) :
    Except GoError Rows × World σ :=
  let r := d.Query query args w.db
  (r.1, { w with db := r.2, issued := w.issued ++ [⟨query, args⟩] })

/-- `db.QueryRow(query, args...)`. -/
def db.QueryRow {σ : Type} (d : Driver σ) (query : String) (args : List Value) (w : World σ) :
    Row × World σ :=
  let r := d.QueryRow query args w.db
  (r.1, { w with db := r.2, issued := w.issued ++ [⟨query, args⟩] })

/-- `db.Exec(query, args...)`. -/
def db.Exec {σ : Type} (d : Driver σ) (query : String) (args : List Value) (w : World σ) :
    Except GoError Result × World σ :=
  let r := d.Exec query args w.db
  (r.1, { w with db := r.2, issued := w.issued ++ [⟨query, args⟩] })

/-! ## The handlers -/

def http.StatusOK : Nat := 200
def http.StatusCreated : Nat := 201
def http.StatusNotFound : Nat := 404
def http.StatusInternalServerError : Nat := 500

/-- The loop of `getAlbums` (main.go, lines 70-87) over the rows the cursor yields,
followed by the check of `rows.Err()` and the success response. -/
def getAlbums.loop {σ : Type} (rowsErr : Option GoError) :
    List RowData → Slice album → World σ → World σ
  | [], albums, w =>
    match rowsErr with
    | some err =>
      let w := fmt.Printf "error: %v" err w
      IndentedJSON http.StatusInternalServerError (.H "error getting albums") w
    | none => IndentedJSON http.StatusOK (.albums albums) w
  | r :: rest, albums, w =>
    match Rows.Scan r album.zero with
    | (_, some err) =>
      let w := fmt.Printf "error %q: " err w
      IndentedJSON http.StatusInternalServerError (.H "error getting albums") w
    | (alb, none) => getAlbums.loop rowsErr rest (albums.append alb) w

/-- `getAlbums` (main.go, lines 56-88).  The deferred `rows.Close()` writes nothing
to the response and is not represented. -/
def getAlbums {σ : Type} (d : Driver σ) (w : World σ) : World σ :=
  let albums : Slice album := .nil
  match db.Query d "SELECT * FROM album" [] w with
  | (.error err, w) =>
    let w := fmt.Printf "error: %v" err w
    IndentedJSON http.StatusInternalServerError (.H "error getting albums") w
  | (.ok rows, w) => getAlbums.loop rows.err rows.pending albums w

/-- `postAlbums` (main.go, lines 91-108); `body` is what decoding the request body
into an `album` yields. -/
def postAlbums {σ : Type} (d : Driver σ) (body : Except GoError album) (w : World σ) : World σ :=
  match w.c.BindJSON body album.zero with
  | (c, _, some _) =>
    IndentedJSON http.StatusInternalServerError (.H "error adding album") { w with c := c }
  | (c, album, none) =>
    let w := { w with c := c }
    match db.Exec d "INSERT INTO album (title, artist, price) VALUES (?, ?, ?)"
        [.str album.Title, .str album.Artist, .float32 album.Price] w with
    | (.error err, w) =>
      let w := fmt.Printf "addAlbum: %v" err w
      IndentedJSON http.StatusInternalServerError (.H "error adding album") w
    | (.ok _, w) => IndentedJSON http.StatusCreated .nil w

/-- `getAlbumByID` (main.go, lines 112-129); `id` is `c.Param("id")`. -/
def getAlbumByID {σ : Type} (d : Driver σ) (id : String) (w : World σ) : World σ :=
  match db.QueryRow d "SELECT * FROM album WHERE id = ?" [.str id] w with
  | (row, w) =>
    match row.Scan album.zero with
    | (alb, some err) =>
      if err = GoError.ErrNoRows then
        IndentedJSON http.StatusNotFound (.H "album not found") w
      else IndentedJSON http.StatusOK (.album alb) w
    | (alb, none) => IndentedJSON http.StatusOK (.album alb) w

/-! ## Concrete databases -/

/-- A database that gives the same scripted answers whatever its state. -/
def Driver.scripted (q : Except GoError Rows) (r : Row) (e : Except GoError Result) :
    Driver Unit :=
  ⟨fun _ _ s => (q, s), fun _ _ s => (r, s), fun _ _ s => (e, s)⟩

/-- A database that cannot be reached: every statement fails with the same text. -/
def Driver.down (text : String) : Driver Unit :=
  Driver.scripted (.error (.other text)) ⟨some (.other text), ⟨[], none⟩, none⟩
    (.error (.other text))

/-- The decimal text of an id, as it appears in the path `/albums/:id`. -/
def decimal (n : Int) : String := toString n

/-- An in-memory `album` table, newest row first.  An insert stores its three
arguments under the next id; a single-row query looks the id text up; the
unfiltered query lists the rows oldest first. -/
def Driver.memory : Driver (List album) where
  Query := fun _ _ t => (.ok ⟨t.reverse.map RowData.of, none⟩, t)
  QueryRow := fun _ args t =>
    match args with
    | [.str key] =>
      match t.find? (fun a => decimal a.ID == key) with
      | some a => (⟨none, ⟨[RowData.of a], none⟩, none⟩, t)
      | none => (⟨none, ⟨[], none⟩, none⟩, t)
    | _ => (⟨some (.other "sql: wrong arguments"), ⟨[], none⟩, none⟩, t)
  Exec := fun _ args t =>
    match args with
    | [.str title, .str artist, .float32 price] =>
      (.ok ⟨t.length + 1, 1⟩, ⟨t.length + 1, title, artist, price⟩ :: t)
    | _ => (.error (.other "sql: wrong arguments"), t)

/-- A world before any request: nothing sent, nothing printed. -/
def World.boot {σ : Type} (db : σ) : World σ := ⟨Context.reset, db, [], []⟩

/-! ## Sample data and specification vocabulary -/

/-- The four status codes the handlers pass to `IndentedJSON`. -/
def handlerCode (code : Nat) : Prop := code = 200 ∨ code = 201 ∨ code = 404 ∨ code = 500

/-- The album a row decodes to when its scan succeeds. -/
def decode (r : RowData) : album := (Rows.Scan r album.zero).1

/-- The album of the example: price 56.99 as a `float32`. -/
def blueTrain : album := ⟨1, "Blue Train", "John Coltrane", 0x4263F5C3⟩

/-- A second album. -/
def jeru : album := ⟨2, "Jeru", "Gerry Mulligan", 0x418BFAE1⟩

/-- The same album with a price that is not a number (a quiet NaN). -/
def nanTrain : album := ⟨1, "Blue Train", "John Coltrane", 0x7FC00000⟩

/-- A row whose title column does not convert, although the columns after it would. -/
def badTitle : RowData :=
  ⟨.ok 3, .error "converting NULL to string is unsupported", .ok "Sarah Vaughan",
    .ok 0x41A7EB85⟩

/-- The body of a response that renders `obj`: its document, or nothing when it does
not marshal. -/
def rendered (obj : Any) : List JSON :=
  match marshal obj with
  | .ok doc => [doc]
  | .error _ => []

/-- A row whose price column does not convert to a `float32`. -/
def badPrice : RowData :=
  ⟨.ok 3, .ok "Sarah Vaughan", .ok "Sarah Vaughan",
    .error "converting NULL to float32 is unsupported"⟩

/-- The album a scan of the row `x` into a zero album leaves: the columns before
the first one that fails to convert are assigned, that column and all after it
keep their zero value; if every column converts the album is the whole row. -/
def RowData.leaves (x : RowData) (alb : album) : Prop :=
  (∃ e, x.ID = .error e ∧ alb = album.zero) ∨
  (∃ id e, x.ID = .ok id ∧ x.Title = .error e ∧ alb = ⟨id, "", "", 0⟩) ∨
  (∃ id title e, x.ID = .ok id ∧ x.Title = .ok title ∧ x.Artist = .error e ∧
    alb = ⟨id, title, "", 0⟩) ∨
  (∃ id title artist e, x.ID = .ok id ∧ x.Title = .ok title ∧ x.Artist = .ok artist ∧
    x.Price = .error e ∧ alb = ⟨id, title, artist, 0⟩) ∨
  (∃ id title artist price, x.ID = .ok id ∧ x.Title = .ok title ∧ x.Artist = .ok artist ∧
    x.Price = .ok price ∧ alb = ⟨id, title, artist, price⟩)

/-- The album a scan of the single-row result leaves: the zero album when the query
itself failed or the cursor yields no row, otherwise what the first row leaves. -/
def Row.leaves (r : Row) (alb : album) : Prop :=
  (r.err ≠ none ∧ alb = album.zero) ∨
  (r.err = none ∧ r.rows.pending = [] ∧ alb = album.zero) ∨
  (∃ x rest, r.err = none ∧ r.rows.pending = x :: rest ∧ x.leaves alb)

/-- An in-memory `album` table whose price column is less precise than a `float32`:
it answers like `Driver.memory`, but an insert stores the price with the low
sixteen bits of its pattern cleared. -/
def Driver.lossy : Driver (List album) where
  Query := Driver.memory.Query
  QueryRow := Driver.memory.QueryRow
  Exec := fun _ args t =>
    match args with
    | [.str title, .str artist, .float32 price] =>
      (.ok ⟨t.length + 1, 1⟩, ⟨t.length + 1, title, artist, price / 65536 * 65536⟩ :: t)
    | _ => (.error (.other "sql: wrong arguments"), t)

/-- The insert statement `postAlbums` sends for an album. -/
def insertStmt (a : album) : Stmt :=
  ⟨"INSERT INTO album (title, artist, price) VALUES (?, ?, ?)",
    [.str a.Title, .str a.Artist, .float32 a.Price]⟩

/-- The storage contract of the database: a row inserted with the arguments
title, artist, price, to which the database assigns the id `n`, is what the
single-row query for the decimal text of `n` returns next, each column converting
to the value that was inserted. -/
def Driver.StoresInserts {σ : Type} (d : Driver σ) : Prop :=
  ∀ (st st1 : σ) (title artist : String) (price : float32) (res : Result),
    d.Exec "INSERT INTO album (title, artist, price) VALUES (?, ?, ?)"
      [.str title, .str artist, .float32 price] st = (.ok res, st1) →
    (d.QueryRow "SELECT * FROM album WHERE id = ?" [.str (decimal res.LastInsertId)] st1).1.Scan
      album.zero = (⟨res.LastInsertId, title, artist, price⟩, none)

/-- The same error with another text; the sentinel `ErrNoRows` has no text. -/
def GoError.retext (f : String → String) : GoError → GoError
  | .ErrNoRows => .ErrNoRows
  | .other t => .other (f t)

/-- A column with the text of its conversion failure rewritten. -/
def retextCol {α : Type} (f : String → String) : Except String α → Except String α
  | .ok a => .ok a
  | .error t => .error (f t)

/-- A row with the texts of its conversion failures rewritten. -/
def RowData.retext (f : String → String) (r : RowData) : RowData :=
  ⟨retextCol f r.ID, retextCol f r.Title, retextCol f r.Artist, retextCol f r.Price⟩

/-- A cursor with every error text rewritten. -/
def Rows.retext (f : String → String) (rs : Rows) : Rows :=
  ⟨rs.pending.map (RowData.retext f), rs.err.map (GoError.retext f)⟩

/-- A single-row result with every error text rewritten. -/
def Row.retext (f : String → String) (r : Row) : Row :=
  ⟨r.err.map (GoError.retext f), r.rows.retext f, r.closeErr.map (GoError.retext f)⟩

/-- The database that answers as `d` does, except that every error it returns
carries the text rewritten by `f`. -/
def Driver.retext {σ : Type} (f : String → String) (d : Driver σ) : Driver σ where
  Query := fun q a s =>
    (match (d.Query q a s).1 with
      | .ok rs => .ok (rs.retext f)
      | .error e => .error (e.retext f), (d.Query q a s).2)
  QueryRow := fun q a s => ((d.QueryRow q a s).1.retext f, (d.QueryRow q a s).2)
  Exec := fun q a s =>
    (match (d.Exec q a s).1 with
      | .ok res => .ok res
      | .error e => .error (e.retext f), (d.Exec q a s).2)

end WebServiceGin

/-! ## Theorems -/

namespace WebServiceGin

/-! ### Writing one response on an untouched context -/

theorem IndentedJSON_fresh {σ : Type} (code : Nat) (obj : Any) (w : World σ) (doc : JSON)
    (hw : w.c.Writer = ResponseWriter.reset) (hc : handlerCode code)
    (hm : marshal obj = .ok doc) :
    IndentedJSON code obj w =
      { w with c := { w.c with Writer := ⟨code, true, [doc]⟩ } } := by
  rcases hc with h | h | h | h <;> subst h <;>
    simp [IndentedJSON, Context.IndentedJSON, Context.Status, ResponseWriter.WriteHeader,
      ResponseWriter.Write, ResponseWriter.WriteHeaderNow, bodyAllowedForStatus, hw,
      ResponseWriter.reset, hm]

theorem IndentedJSON_fresh_response {σ : Type} (code : Nat) (obj : Any) (w : World σ)
    (hw : w.c.Writer = ResponseWriter.reset) (hc : handlerCode code) :
    (IndentedJSON code obj w).response = (code, rendered obj) := by
  rcases hm : marshal obj with e | doc
  · rcases hc with h | h | h | h <;> subst h <;>
      simp [IndentedJSON, Context.IndentedJSON, Context.Status, ResponseWriter.WriteHeader,
        bodyAllowedForStatus, hw, ResponseWriter.reset, hm, World.response, rendered]
  · rw [IndentedJSON_fresh code obj w doc hw hc hm]
    simp [World.response, rendered, hm]

theorem rendered_albums (l : List album) (hfin : ∀ a ∈ l, a.Price.finite = true) :
    rendered (.albums (.mk l)) = [JSON.arr (l.map album.toJSON)] := by
  have h : l.all (fun a => a.Price.finite) = true := by
    rw [List.all_eq_true]; exact hfin
  simp [rendered, marshal, h]

theorem Rows.Scan_ok (r : RowData) (h : (Rows.Scan r album.zero).2 = none) :
    r = RowData.of (Rows.Scan r album.zero).1 := by
  rcases r with ⟨_ | _, _ | _, _ | _, _ | _⟩ <;> simp [Rows.Scan, RowData.of] at h ⊢

/-! ### The loop of `getAlbums` -/

theorem Slice.toList_append {α : Type} (s : Slice α) (x : α) :
    (s.append x).toList = s.toList ++ [x] := by
  cases s <;> rfl

theorem Slice.toList_foldl_append (rows : List RowData) (acc : Slice album) :
    (rows.foldl (fun s r => s.append (decode r)) acc).toList = acc.toList ++ rows.map decode := by
  induction rows generalizing acc with
  | nil => simp
  | cons r rest ih => simp [ih, Slice.toList_append]

theorem Slice.foldl_append_ne_nil (rows : List RowData) (acc : Slice album)
    (h : rows ≠ [] ∨ acc ≠ .nil) :
    ∃ l, rows.foldl (fun s r => s.append (decode r)) acc = .mk l := by
  induction rows generalizing acc with
  | nil =>
    cases acc with
    | nil => simp at h
    | mk l => exact ⟨l, rfl⟩
  | cons r rest ih =>
    simp only [List.foldl_cons]
    apply ih
    right
    cases acc <;> simp [Slice.append]

theorem getAlbums.loop_ok {σ : Type} (rows : List RowData) (acc : Slice album) (w : World σ)
    (hall : ∀ r ∈ rows, (Rows.Scan r album.zero).2 = none) :
    getAlbums.loop none rows acc w =
      IndentedJSON http.StatusOK (.albums (rows.foldl (fun s r => s.append (decode r)) acc)) w := by
  induction rows generalizing acc with
  | nil => simp [getAlbums.loop]
  | cons r rest ih =>
    have hr := hall r (List.mem_cons_self _ _)
    rcases hs : Rows.Scan r album.zero with ⟨alb, e⟩
    rw [hs] at hr
    simp only at hr
    subst hr
    have hd : decode r = alb := by simp [decode, hs]
    simp only [getAlbums.loop, hs, List.foldl_cons, hd]
    exact ih _ (fun x hx => hall x (List.mem_cons_of_mem _ hx))

theorem getAlbums.loop_fail {σ : Type} (rowsErr : Option GoError) (rows : List RowData)
    (acc : Slice album) (w : World σ) (hw : w.c.Writer = ResponseWriter.reset)
    (h : (∃ r ∈ rows, (Rows.Scan r album.zero).2 ≠ none) ∨ rowsErr ≠ none) :
    (getAlbums.loop rowsErr rows acc w).response =
      (500, [JSON.obj [("message", .str "error getting albums")]]) := by
  induction rows generalizing acc with
  | nil =>
    have hne : rowsErr ≠ none := by
      rcases h with ⟨r, hr, _⟩ | h
      · simp at hr
      · exact h
    cases rowsErr with
    | none => exact absurd rfl hne
    | some err =>
      simp only [getAlbums.loop]
      exact IndentedJSON_fresh_response _ _ _ (by simpa [fmt.Printf] using hw)
        (by simp [handlerCode, http.StatusInternalServerError])
  | cons r rest ih =>
    rcases hs : Rows.Scan r album.zero with ⟨alb, e⟩
    cases e with
    | some err =>
      simp only [getAlbums.loop, hs]
      exact IndentedJSON_fresh_response _ _ _ (by simpa [fmt.Printf] using hw)
        (by simp [handlerCode, http.StatusInternalServerError])
    | none =>
      simp only [getAlbums.loop, hs]
      apply ih
      rcases h with ⟨x, hx, hxe⟩ | h
      · left
        rcases List.mem_cons.mp hx with rfl | hx
        · rw [hs] at hxe; simp at hxe
        · exact ⟨x, hx, hxe⟩
      · exact Or.inr h

/-! ### `getAlbums` -/

/-- C1 (the code departs from the claim): on an empty table, with the query
succeeding and no cursor error, `getAlbums` responds with status 200, but the slice
it marshals is still nil, so the body is the JSON value `null` and not the empty
array `[]`. -/
theorem getAlbums_empty_table_body_is_null :
    (getAlbums Driver.memory (World.boot [])).response = (200, [JSON.null]) ∧
    (getAlbums Driver.memory (World.boot [])).response ≠ (200, [JSON.arr []]) := by
  constructor
  · rfl
  · intro h
    have h2 : (200, [JSON.null]) = ((200 : Nat), [JSON.arr []]) := h
    simp at h2

/-- C2 as stated fails: a result of one row that decodes without error, to an album
whose price is NaN, with no cursor error, gets status 200 and an empty body, not a
sequence of one album. -/
theorem getAlbums_nan_price_empty_body :
    (Rows.Scan (RowData.of nanTrain) album.zero) = (nanTrain, none) ∧
    (getAlbums (Driver.scripted (.ok ⟨[RowData.of nanTrain], none⟩)
        ⟨none, ⟨[], none⟩, none⟩ (.ok ⟨0, 0⟩)) (World.boot ()).request).response
      = (200, []) :=
  ⟨rfl, rfl⟩

/-- C2 (amended): when `SELECT * FROM album` succeeds with at least one row, every
row decodes to an album with a finite price and the cursor reports no error,
`getAlbums` responds with status 200 and exactly one document, the JSON array of
the album objects of the decoded rows: as many items as rows, the i-th item being
the object of the decoding (id, title, artist, price) of the i-th row. -/
theorem getAlbums_success_array {σ : Type} (d : Driver σ) (w : World σ)
    (rows : List RowData)
    (hq : (d.Query "SELECT * FROM album" [] w.db).1 = .ok ⟨rows, none⟩)
    (hall : ∀ r ∈ rows, (Rows.Scan r album.zero).2 = none)
    (hfin : ∀ r ∈ rows, (decode r).Price.finite = true)
    (hne : rows ≠ []) :
    (getAlbums d w.request).response =
      (200, [JSON.arr (rows.map (fun r => (decode r).toJSON))]) ∧
    (rows.map (fun r => (decode r).toJSON)).length = rows.length ∧
    (∀ i (hi : i < rows.length),
      (rows.map (fun r => (decode r).toJSON))[i]? = some (decode rows[i]).toJSON) ∧
    (∀ r ∈ rows, r = RowData.of (decode r)) := by
  refine ⟨?_, by simp, ?_, ?_⟩
  · have hq2 : (d.Query "SELECT * FROM album" [] (World.request w).db).1 = .ok ⟨rows, none⟩ := hq
    simp only [getAlbums, db.Query]
    rw [hq2]
    simp only
    rw [getAlbums.loop_ok rows _ _ hall,
      IndentedJSON_fresh_response _ _ _ rfl (by simp [handlerCode, http.StatusOK])]
    obtain ⟨l, hl⟩ := Slice.foldl_append_ne_nil rows .nil (Or.inl hne)
    have ht := Slice.toList_foldl_append rows .nil
    rw [hl] at ht
    simp only [Slice.toList, List.nil_append] at ht
    subst ht
    rw [hl, rendered_albums _ (by simpa using hfin)]
    simp [http.StatusOK]
  · intro i hi
    simp [hi]
  · intro r hr
    exact Rows.Scan_ok r (hall r hr)

theorem getAlbums_success_array_witness :
    (getAlbums (Driver.scripted (.ok ⟨[RowData.of blueTrain, RowData.of jeru], none⟩)
        ⟨none, ⟨[], none⟩, none⟩ (.ok ⟨0, 0⟩)) (World.boot ()).request).response
      = (200, [JSON.arr [blueTrain.toJSON, jeru.toJSON]]) :=
  (getAlbums_success_array
    (Driver.scripted (.ok ⟨[RowData.of blueTrain, RowData.of jeru], none⟩)
      ⟨none, ⟨[], none⟩, none⟩ (.ok ⟨0, 0⟩)) (World.boot ())
    [RowData.of blueTrain, RowData.of jeru] rfl
    (by intro r hr; simp at hr; rcases hr with rfl | rfl <;> rfl)
    (by intro r hr; simp at hr; rcases hr with rfl | rfl <;> rfl)
    (by simp)).1

/-- C3: if issuing the query fails, or some row fails to decode, or the cursor
reports an error after the iteration, `getAlbums` responds with status 500 and
exactly the body with the one member "message": "error getting albums"; no album
decoded before the failure is in the response. -/
theorem getAlbums_failure_fixed_payload {σ : Type} (d : Driver σ) (w : World σ)
    (h : (∃ e, (d.Query "SELECT * FROM album" [] w.db).1 = .error e) ∨
      (∃ rows, (d.Query "SELECT * FROM album" [] w.db).1 = .ok rows ∧
        ((∃ r ∈ rows.pending, (Rows.Scan r album.zero).2 ≠ none) ∨ rows.err ≠ none))) :
    (getAlbums d w.request).response =
      (500, [JSON.obj [("message", .str "error getting albums")]]) := by
  rcases h with ⟨e, he⟩ | ⟨rows, hr, hfail⟩
  · have he2 : (d.Query "SELECT * FROM album" [] (World.request w).db).1 = .error e := he
    simp only [getAlbums, db.Query]
    rw [he2]
    exact IndentedJSON_fresh_response _ _ _ rfl
      (by simp [handlerCode, http.StatusInternalServerError])
  · have hr2 : (d.Query "SELECT * FROM album" [] (World.request w).db).1 = .ok rows := hr
    simp only [getAlbums, db.Query]
    rw [hr2]
    exact getAlbums.loop_fail _ _ _ _ rfl hfail

theorem getAlbums_failure_fixed_payload_witness :
    (getAlbums (Driver.scripted (.ok ⟨[RowData.of blueTrain, badPrice, RowData.of jeru], none⟩)
        ⟨none, ⟨[], none⟩, none⟩ (.ok ⟨0, 0⟩)) (World.boot ()).request).response =
      (500, [JSON.obj [("message", .str "error getting albums")]]) :=
  getAlbums_failure_fixed_payload
    (Driver.scripted (.ok ⟨[RowData.of blueTrain, badPrice, RowData.of jeru], none⟩)
      ⟨none, ⟨[], none⟩, none⟩ (.ok ⟨0, 0⟩)) (World.boot ())
    (Or.inr ⟨⟨[RowData.of blueTrain, badPrice, RowData.of jeru], none⟩, rfl,
      Or.inl ⟨badPrice, by simp, by simp [Rows.Scan, badPrice]⟩⟩)

/-! ### `getAlbumByID` -/

theorem getAlbumByID_response {σ : Type} (d : Driver σ) (id : String) (w : World σ) :
    (getAlbumByID d id w.request).response =
      if ((d.QueryRow "SELECT * FROM album WHERE id = ?" [.str id] w.db).1.Scan album.zero).2
          = some .ErrNoRows
      then (404, [JSON.obj [("message", .str "album not found")]])
      else (200, rendered (.album
        ((d.QueryRow "SELECT * FROM album WHERE id = ?" [.str id] w.db).1.Scan album.zero).1)) := by
  have hdb : (World.request w).db = w.db := rfl
  simp only [getAlbumByID, db.QueryRow, hdb]
  rcases hs : (d.QueryRow "SELECT * FROM album WHERE id = ?" [.str id] w.db).1.Scan album.zero
    with ⟨alb, e⟩
  cases e with
  | none =>
    simp only [reduceCtorEq, if_false]
    exact IndentedJSON_fresh_response _ _ _ rfl (by simp [handlerCode, http.StatusOK])
  | some err =>
    by_cases he : err = .ErrNoRows
    · subst he
      simp only [if_true]
      exact IndentedJSON_fresh_response _ _ _ rfl (by simp [handlerCode, http.StatusNotFound])
    · simp only [he, if_false, Option.some.injEq]
      exact IndentedJSON_fresh_response _ _ _ rfl (by simp [handlerCode, http.StatusOK])

theorem getAlbumByID_stdout {σ : Type} (d : Driver σ) (id : String) (w : World σ) :
    (getAlbumByID d id w).stdout = w.stdout := by
  simp only [getAlbumByID, db.QueryRow]
  rcases (d.QueryRow "SELECT * FROM album WHERE id = ?" [.str id] w.db).1.Scan album.zero
    with ⟨alb, e⟩
  cases e with
  | none => rfl
  | some err => by_cases he : err = .ErrNoRows <;> simp [he, IndentedJSON]

theorem RowData.leaves_rowsScan (x : RowData) : x.leaves (Rows.Scan x album.zero).1 := by
  rcases x with ⟨_ | _, _ | _, _ | _, _ | _⟩ <;> simp [RowData.leaves, Rows.Scan, album.zero]

theorem Row.leaves_rowScan (r : Row) : r.leaves (r.Scan album.zero).1 := by
  rcases r with ⟨err, ⟨pending, rowsErr⟩, closeErr⟩
  cases err with
  | some e => exact Or.inl ⟨by simp, rfl⟩
  | none =>
    cases pending with
    | nil => cases rowsErr <;> exact Or.inr (Or.inl ⟨rfl, rfl, rfl⟩)
    | cons x rest =>
      have h1 : (Row.Scan ⟨none, ⟨x :: rest, rowsErr⟩, closeErr⟩ album.zero).1
          = (Rows.Scan x album.zero).1 := by
        simp only [Row.Scan]
        rcases Rows.Scan x album.zero with ⟨alb, e⟩
        cases e <;> rfl
      rw [h1]
      exact Or.inr (Or.inr ⟨x, rest, rfl, rfl, RowData.leaves_rowsScan x⟩)

/-- C4: whatever the id path parameter, `getAlbumByID` responds with status 404 and
exactly the body with the one member "message": "album not found" if and only if
the scan of the single-row result returns `sql.ErrNoRows`; in every other case the
status is 200. -/
theorem getAlbumByID_not_found_iff {σ : Type} (d : Driver σ) (id : String) (w : World σ) :
    ((getAlbumByID d id w.request).response =
        (404, [JSON.obj [("message", .str "album not found")]]) ↔
      ((d.QueryRow "SELECT * FROM album WHERE id = ?" [.str id] w.db).1.Scan album.zero).2
        = some .ErrNoRows) ∧
    (((d.QueryRow "SELECT * FROM album WHERE id = ?" [.str id] w.db).1.Scan album.zero).2
        ≠ some .ErrNoRows →
      (getAlbumByID d id w.request).response.1 = 200) := by
  rw [getAlbumByID_response]
  by_cases h : ((d.QueryRow "SELECT * FROM album WHERE id = ?" [.str id] w.db).1.Scan
      album.zero).2 = some .ErrNoRows
  · simp [h]
  · simp [h]

/-- C10 as stated fails: when the row decodes in full, to an album whose price is
NaN, and closing the cursor then reports an error, the scan returns that error
(not `sql.ErrNoRows`) and `getAlbumByID` responds with status 200 and an empty
body, not with the album the scan left. -/
theorem getAlbumByID_nan_price_empty_body :
    (Row.Scan ⟨none, ⟨[RowData.of nanTrain], none⟩, some (.other "driver: bad connection")⟩
        album.zero) = (nanTrain, some (.other "driver: bad connection")) ∧
    (getAlbumByID (Driver.scripted (.ok ⟨[], none⟩)
        ⟨none, ⟨[RowData.of nanTrain], none⟩, some (.other "driver: bad connection")⟩
        (.ok ⟨0, 0⟩)) "1" (World.boot ()).request).response = (200, []) :=
  ⟨rfl, rfl⟩

/-- C10 (amended): when the scan of the single-row result returns an error other
than `sql.ErrNoRows`, `getAlbumByID` prints nothing, writes no error payload and
responds with status 200; the album is as the scan left it, that is the columns
converted before the failure followed by zero values (0, "", "", 0) from the
failing column on; the body is that album's object when its price is finite, and
empty when it is not. -/
theorem getAlbumByID_fall_through {σ : Type} (d : Driver σ) (id : String) (w : World σ)
    (alb : album) (err : GoError)
    (hscan : (d.QueryRow "SELECT * FROM album WHERE id = ?" [.str id] w.db).1.Scan album.zero
      = (alb, some err))
    (hne : err ≠ .ErrNoRows) :
    (getAlbumByID d id w.request).response =
      (200, if alb.Price.finite then [alb.toJSON] else []) ∧
    (getAlbumByID d id w.request).stdout = w.stdout ∧
    (d.QueryRow "SELECT * FROM album WHERE id = ?" [.str id] w.db).1.leaves alb := by
  refine ⟨?_, ?_, ?_⟩
  · rw [getAlbumByID_response, hscan]
    by_cases hf : alb.Price.finite = true <;> simp [hne, rendered, marshal, hf]
  · rw [getAlbumByID_stdout]; rfl
  · have h := Row.leaves_rowScan (d.QueryRow "SELECT * FROM album WHERE id = ?" [.str id] w.db).1
    rw [hscan] at h
    exact h

theorem getAlbumByID_fall_through_witness :
    (getAlbumByID (Driver.scripted (.ok ⟨[], none⟩) ⟨none, ⟨[badTitle], none⟩, none⟩
        (.ok ⟨0, 0⟩)) "3" (World.boot ()).request).response
      = (200, [album.toJSON ⟨3, "", "", 0⟩]) :=
  (getAlbumByID_fall_through (Driver.scripted (.ok ⟨[], none⟩)
      ⟨none, ⟨[badTitle], none⟩, none⟩ (.ok ⟨0, 0⟩)) "3" (World.boot ())
    ⟨3, "", "", 0⟩
    (.other "converting NULL to string is unsupported") rfl (by simp)).1

/-- C9 (the code departs from the claim): with the database unreachable, so that
every statement returns an error, `getAlbums` and `postAlbums` answer 500 with their
fixed message, but `getAlbumByID` answers status 200 with the zero-valued album
object, not an error status with a message body. -/
theorem getAlbumByID_database_error_is_200 :
    (getAlbumByID (Driver.down "dial tcp 127.0.0.1:3306: connect: connection refused") "1"
        (World.boot ())).response
      = (200, [JSON.obj [("id", .int 0), ("title", .str ""), ("artist", .str ""),
          ("price", .float32 0)]]) ∧
    (getAlbums (Driver.down "dial tcp 127.0.0.1:3306: connect: connection refused")
        (World.boot ())).response
      = (500, [JSON.obj [("message", .str "error getting albums")]]) ∧
    (postAlbums (Driver.down "dial tcp 127.0.0.1:3306: connect: connection refused")
        (.ok blueTrain) (World.boot ())).response
      = (500, [JSON.obj [("message", .str "error adding album")]]) :=
  ⟨rfl, rfl, rfl⟩

/-! ### `postAlbums` -/

theorem postAlbums_bound {σ : Type} (d : Driver σ) (a : album) (w : World σ) :
    postAlbums d (.ok a) w.request =
      match d.Exec (insertStmt a).query (insertStmt a).args w.db with
      | (.error err, st) =>
        { c := { Context.reset with
            Writer := ⟨500, true, [JSON.obj [("message", .str "error adding album")]]⟩ },
          db := st, issued := w.issued ++ [insertStmt a],
          stdout := w.stdout ++ [⟨"addAlbum: %v", err⟩] }
      | (.ok _, st) =>
        { c := { Context.reset with Writer := ⟨201, true, [JSON.null]⟩ },
          db := st, issued := w.issued ++ [insertStmt a], stdout := w.stdout } := by
  have hdb : (World.request w).db = w.db := rfl
  simp only [postAlbums, Context.BindJSON, db.Exec, insertStmt, hdb]
  rcases hx : d.Exec "INSERT INTO album (title, artist, price) VALUES (?, ?, ?)"
    [.str a.Title, .str a.Artist, .float32 a.Price] w.db with ⟨r, st⟩
  cases r with
  | error err =>
    simp only
    rw [IndentedJSON_fresh http.StatusInternalServerError (.H "error adding album") _
      (JSON.obj [("message", .str "error adding album")]) rfl
      (by simp [handlerCode, http.StatusInternalServerError]) rfl]
    rfl
  | ok res =>
    simp only
    rw [IndentedJSON_fresh http.StatusCreated .nil _ JSON.null rfl
      (by simp [handlerCode, http.StatusCreated]) rfl]
    rfl

/-- C6 (the code departs from the claim on the status): when the request body does
not decode into an album, `postAlbums` sends no statement and leaves the database
as it was, and the body is exactly the one member "message": "error adding album";
but `BindJSON` has already committed status 400 when the handler asks for 500, so
the status of the response is 400. -/
theorem postAlbums_bind_failure_status_400 {σ : Type} (d : Driver σ) (err : GoError)
    (w : World σ) :
    (postAlbums d (.error err) w.request).response =
      (400, [JSON.obj [("message", .str "error adding album")]]) ∧
    (postAlbums d (.error err) w.request).issued = w.issued ∧
    (postAlbums d (.error err) w.request).db = w.db :=
  ⟨rfl, rfl, rfl⟩

/-- C7: two decoded bodies with the same title, artist and price make `postAlbums`
behave identically whatever their ids: the same single statement
`INSERT INTO album (title, artist, price) VALUES (?, ?, ?)` with the arguments
title, artist, price is sent, the resulting world (response included) is the same,
and no argument of the statement is an integer, so the id is not among them. -/
theorem postAlbums_ignores_client_id {σ : Type} (d : Driver σ) (w : World σ) (a b : album)
    (hT : a.Title = b.Title) (hA : a.Artist = b.Artist) (hP : a.Price = b.Price) :
    postAlbums d (.ok a) w.request = postAlbums d (.ok b) w.request ∧
    (postAlbums d (.ok a) w.request).issued = w.issued ++
      [⟨"INSERT INTO album (title, artist, price) VALUES (?, ?, ?)",
        [.str a.Title, .str a.Artist, .float32 a.Price]⟩] ∧
    (postAlbums d (.ok b) w.request).issued = w.issued ++
      [⟨"INSERT INTO album (title, artist, price) VALUES (?, ?, ?)",
        [.str a.Title, .str a.Artist, .float32 a.Price]⟩] ∧
    ∀ v ∈ [Value.str a.Title, Value.str a.Artist, Value.float32 a.Price], ∀ n, v ≠ Value.int n := by
  have hab : insertStmt a = insertStmt b := by simp [insertStmt, hT, hA, hP]
  have hi : ∀ x : album, (postAlbums d (.ok x) w.request).issued = w.issued ++ [insertStmt x] := by
    intro x
    rw [postAlbums_bound]
    rcases d.Exec (insertStmt x).query (insertStmt x).args w.db with ⟨r, st⟩
    cases r <;> rfl
  refine ⟨?_, hi a, ?_, ?_⟩
  · rw [postAlbums_bound, postAlbums_bound, hab]
  · rw [hi b, ← hab]; rfl
  · intro v hv n
    simp at hv
    rcases hv with rfl | rfl | rfl <;> simp

theorem postAlbums_ignores_client_id_witness :
    postAlbums Driver.memory (.ok blueTrain) (World.boot []).request =
      postAlbums Driver.memory (.ok { blueTrain with ID := 4096 }) (World.boot []).request :=
  (postAlbums_ignores_client_id Driver.memory (World.boot []) blueTrain
    { blueTrain with ID := 4096 } rfl rfl rfl).1

/-- C8: once the body has decoded into an album, `postAlbums` sends exactly one
statement, the insert, and responds with status 201 and the body `null` if the
insert succeeds, with status 500 and exactly the body with the one member
"message": "error adding album" if it fails. -/
theorem postAlbums_outcome_after_bind {σ : Type} (d : Driver σ) (a : album) (w : World σ) :
    (postAlbums d (.ok a) w.request).issued = w.issued ++
      [⟨"INSERT INTO album (title, artist, price) VALUES (?, ?, ?)",
        [.str a.Title, .str a.Artist, .float32 a.Price]⟩] ∧
    (postAlbums d (.ok a) w.request).response =
      match (d.Exec "INSERT INTO album (title, artist, price) VALUES (?, ?, ?)"
          [.str a.Title, .str a.Artist, .float32 a.Price] w.db).1 with
      | .ok _ => (201, [JSON.null])
      | .error _ => (500, [JSON.obj [("message", .str "error adding album")]]) := by
  rw [postAlbums_bound]
  simp only [insertStmt]
  rcases d.Exec "INSERT INTO album (title, artist, price) VALUES (?, ?, ?)"
    [.str a.Title, .str a.Artist, .float32 a.Price] w.db with ⟨r, st⟩
  cases r <;> exact ⟨rfl, rfl⟩

/-! ### Create, then get -/

theorem Driver.memory_storesInserts : Driver.memory.StoresInserts := by
  intro st st1 title artist price res h
  simp only [Driver.memory, Prod.mk.injEq, Except.ok.injEq] at h
  obtain ⟨rfl, rfl⟩ := h
  simp [Driver.memory, List.find?, Row.Scan, Rows.Scan, RowData.of, album.zero]

/-- C5 as stated fails: over a database whose price column is less precise than a
`float32`, `postAlbums` of the example album succeeds with 201, the insert is
assigned id 1, and `getAlbumByID` for 1 then answers 200 with an album whose price
(56.75) is not the submitted one (56.99). -/
theorem postAlbums_then_getAlbumByID_lossy :
    (postAlbums Driver.lossy (.ok blueTrain) (World.boot []).request).response
      = (201, [JSON.null]) ∧
    (Driver.lossy.Exec "INSERT INTO album (title, artist, price) VALUES (?, ?, ?)"
      [.str "Blue Train", .str "John Coltrane", .float32 0x4263F5C3] []).1 = .ok ⟨1, 1⟩ ∧
    (getAlbumByID Driver.lossy "1"
        (postAlbums Driver.lossy (.ok blueTrain) (World.boot []).request).request).response
      = (200, [album.toJSON ⟨1, "Blue Train", "John Coltrane", 0x42630000⟩]) ∧
    (getAlbumByID Driver.lossy "1"
        (postAlbums Driver.lossy (.ok blueTrain) (World.boot []).request).request).response
      ≠ (200, [album.toJSON ⟨1, "Blue Train", "John Coltrane", 0x4263F5C3⟩]) := by
  refine ⟨rfl, rfl, rfl, ?_⟩
  intro h
  have h2 : ((200 : Nat), [album.toJSON ⟨1, "Blue Train", "John Coltrane", 0x42630000⟩])
      = (200, [album.toJSON ⟨1, "Blue Train", "John Coltrane", 0x4263F5C3⟩]) := h
  simp [album.toJSON] at h2

/-- C5 (amended): over a database that returns an inserted row as it was inserted
(`Driver.StoresInserts`), for every decoded body with a finite price, if the insert
`postAlbums` sends succeeds and the database assigns the row the id `n`, then
`postAlbums` responds 201 and `getAlbumByID` with the path parameter `n` responds
with status 200 and the album object whose id is `n` and whose title, artist and
price are the submitted ones. -/
theorem postAlbums_then_getAlbumByID {σ : Type} (d : Driver σ) (hd : d.StoresInserts)
    (w : World σ) (a : album) (hfin : a.Price.finite = true) (res : Result) (st1 : σ)
    (hexec : d.Exec "INSERT INTO album (title, artist, price) VALUES (?, ?, ?)"
      [.str a.Title, .str a.Artist, .float32 a.Price] w.db = (.ok res, st1)) :
    (postAlbums d (.ok a) w.request).response = (201, [JSON.null]) ∧
    (getAlbumByID d (decimal res.LastInsertId) (postAlbums d (.ok a) w.request).request).response =
      (200, [JSON.obj [("id", .int res.LastInsertId), ("title", .str a.Title),
        ("artist", .str a.Artist), ("price", .float32 a.Price)]]) := by
  have hp := postAlbums_bound d a w
  simp only [insertStmt, hexec] at hp
  refine ⟨by rw [hp]; rfl, ?_⟩
  rw [getAlbumByID_response]
  have hdb : (postAlbums d (.ok a) w.request).db = st1 := by rw [hp]
  rw [hdb, hd w.db st1 a.Title a.Artist a.Price res hexec]
  simp [rendered, marshal, album.toJSON, hfin]

theorem postAlbums_then_getAlbumByID_witness :
    (getAlbumByID Driver.memory "1"
        (postAlbums Driver.memory (.ok { blueTrain with ID := 0 })
          (World.boot []).request).request).response =
      (200, [JSON.obj [("id", .int 1), ("title", .str "Blue Train"),
        ("artist", .str "John Coltrane"), ("price", .float32 0x4263F5C3)]]) :=
  (postAlbums_then_getAlbumByID Driver.memory Driver.memory_storesInserts (World.boot [])
    { blueTrain with ID := 0 } rfl ⟨1, 1⟩ [⟨1, "Blue Train", "John Coltrane", 0x4263F5C3⟩] rfl).2

/-! ### Error texts and statements issued -/

theorem GoError.retext_eq_ErrNoRows (f : String → String) (e : GoError) :
    e.retext f = .ErrNoRows ↔ e = .ErrNoRows := by
  cases e <;> simp [GoError.retext]

theorem rowsScan_retext (f : String → String) (r : RowData) (a : album) :
    Rows.Scan (r.retext f) a =
      ((Rows.Scan r a).1, (Rows.Scan r a).2.map (GoError.retext f)) := by
  rcases r with ⟨_ | _, _ | _, _ | _, _ | _⟩ <;> rfl

theorem rowScan_retext (f : String → String) (r : Row) (a : album) :
    (r.retext f).Scan a = ((r.Scan a).1, (r.Scan a).2.map (GoError.retext f)) := by
  rcases r with ⟨err, ⟨pending, rowsErr⟩, closeErr⟩
  cases err with
  | some e => rfl
  | none =>
    cases pending with
    | nil => cases rowsErr <;> rfl
    | cons x rest =>
      simp only [Row.Scan, Row.retext, Rows.retext, List.map_cons, Option.map_none',
        rowsScan_retext]
      rcases Rows.Scan x a with ⟨alb, e⟩
      cases e <;> rfl

theorem getAlbums.loop_retext {σ : Type} (f : String → String) (rowsErr : Option GoError)
    (rows : List RowData) (acc : Slice album) (w1 w2 : World σ) (hc : w1.c = w2.c) :
    (getAlbums.loop (rowsErr.map (GoError.retext f)) (rows.map (RowData.retext f)) acc w1).c =
      (getAlbums.loop rowsErr rows acc w2).c := by
  induction rows generalizing acc with
  | nil => cases rowsErr <;> simp [getAlbums.loop, IndentedJSON, fmt.Printf, hc]
  | cons r rest ih =>
    simp only [List.map_cons, getAlbums.loop, rowsScan_retext]
    rcases Rows.Scan r album.zero with ⟨alb, e⟩
    cases e with
    | some err => simp [IndentedJSON, fmt.Printf, hc]
    | none => exact ih _

theorem getAlbums.loop_issued {σ : Type} (rowsErr : Option GoError) (rows : List RowData)
    (acc : Slice album) (w : World σ) :
    (getAlbums.loop rowsErr rows acc w).issued = w.issued ∧
    (getAlbums.loop rowsErr rows acc w).db = w.db := by
  induction rows generalizing acc with
  | nil => cases rowsErr <;> exact ⟨rfl, rfl⟩
  | cons r rest ih =>
    simp only [getAlbums.loop]
    rcases Rows.Scan r album.zero with ⟨alb, e⟩
    cases e with
    | some err => exact ⟨rfl, rfl⟩
    | none => exact ih _

/-- Two databases that answer alike except for the text of the errors they return
get the same response (status and body) from each of the three handlers. -/
theorem response_independent_of_error_text {σ : Type} (f : String → String) (d : Driver σ)
    (w : World σ) (id : String) (body : Except GoError album) :
    (getAlbums (d.retext f) w).response = (getAlbums d w).response ∧
    (getAlbumByID (d.retext f) id w).response = (getAlbumByID d id w).response ∧
    (postAlbums (d.retext f) body w).response = (postAlbums d body w).response := by
  refine ⟨?_, ?_, ?_⟩
  · have hc : (getAlbums (d.retext f) w).c = (getAlbums d w).c := by
      simp only [getAlbums, db.Query, Driver.retext]
      rcases d.Query "SELECT * FROM album" [] w.db with ⟨r, st⟩
      cases r with
      | error e => rfl
      | ok rs => exact getAlbums.loop_retext f rs.err rs.pending _ _ _ rfl
    simp only [World.response, hc]
  · have hc : (getAlbumByID (d.retext f) id w).c = (getAlbumByID d id w).c := by
      simp only [getAlbumByID, db.QueryRow, Driver.retext, rowScan_retext]
      rcases (d.QueryRow "SELECT * FROM album WHERE id = ?" [.str id] w.db).1.Scan album.zero
        with ⟨alb, e⟩
      cases e with
      | none => rfl
      | some err =>
        by_cases he : err = .ErrNoRows
        · subst he; rfl
        · have he2 : ¬ err.retext f = .ErrNoRows := by
            rw [GoError.retext_eq_ErrNoRows]; exact he
          simp [he, he2, IndentedJSON]
    simp only [World.response, hc]
  · have hc : (postAlbums (d.retext f) body w).c = (postAlbums d body w).c := by
      cases body with
      | error e => rfl
      | ok a =>
        simp only [postAlbums, Context.BindJSON, db.Exec, Driver.retext]
        rcases d.Exec "INSERT INTO album (title, artist, price) VALUES (?, ?, ?)"
          [.str a.Title, .str a.Artist, .float32 a.Price] w.db with ⟨r, st⟩
        cases r <;> rfl
    simp only [World.response, hc]

/-- Each read handler sends exactly one statement: `getAlbums` the unfiltered select
without arguments, `getAlbumByID` the single-row select whose only argument is the
path parameter, passed on as the string it is. -/
theorem read_handlers_issue_one_select {σ : Type} (d : Driver σ) (w : World σ) (id : String) :
    (getAlbums d w).issued = w.issued ++ [⟨"SELECT * FROM album", []⟩] ∧
    (getAlbumByID d id w).issued =
      w.issued ++ [⟨"SELECT * FROM album WHERE id = ?", [.str id]⟩] := by
  constructor
  · simp only [getAlbums, db.Query]
    rcases d.Query "SELECT * FROM album" [] w.db with ⟨r, st⟩
    cases r with
    | error e => rfl
    | ok rs => exact (getAlbums.loop_issued rs.err rs.pending _ _).1
  · simp only [getAlbumByID, db.QueryRow]
    rcases (d.QueryRow "SELECT * FROM album WHERE id = ?" [.str id] w.db).1.Scan album.zero
      with ⟨alb, e⟩
    cases e with
    | none => rfl
    | some err => by_cases he : err = .ErrNoRows <;> simp [he, IndentedJSON]

end WebServiceGin
